import Mathlib

/-!
# indigo-gpt: a shallow embedding of `main.go`

The program is a command-line client of a home-automation REST API that can ask a chat
model which devices to switch.  This file embeds `main.go` in Lean and settles the
claims of its specification against the embedding.

Conventions of the embedding.

* Go `string` is `String`; text that is not valid UTF-8 is outside the model.
* The outside world (HTTP transport, template files, the chat endpoint, the `fmt`
  rendering of non-string values) is an `Env` value; every function is proved for all of
  them.  An `Env` answers from the history of events so far, so a server whose replies
  change over time is covered.
* A run is a function from the trace of events so far to the trace afterwards and an
  `Outcome`: a normal return or a run-time panic.  A Go function result `(v, err)` is a
  pair whose second component is `Option GoError` (`none` is `nil`).
* `encoding/json`, `fmt.Sprintf`, `strings.Fields`, `strings.Join` and `strings.Split` are
  library code; they are modelled here from their documented behaviour.
-/

namespace IndigoGPT

/-! ## Values decoded by `encoding/json` into `interface{}` -/

/-- A Go value of type `interface{}` as `encoding/json` produces it.  A number keeps its
literal text (it is a `float64` in Go). -/
inductive JSON where
  | null
  | bool (b : Bool)
  | num (lit : String)
  | str (s : String)
  | arr (xs : List JSON)
  | obj (ms : List (String × JSON))

/-- The entries of a Go `map[string]interface{}`, one per key. -/
abbrev Members := List (String × JSON)

/-- Map assignment `m[k] = v`: replaces the entry of `k` when there is one. -/
def Members.assign (k : String) (v : JSON) : Members → Members
  | [] => [(k, v)]
  | (k', v') :: ms => if k' = k then (k, v) :: ms else (k', v') :: Members.assign k v ms

/-- Map read `m[k]`; `none` is the nil interface value a missing key gives. -/
def Members.lookup (k : String) : Members → Option JSON
  | [] => none
  | (k', v) :: ms => if k' = k then some v else Members.lookup k ms

/-- A Go `map[string]interface{}` value; `none` is the nil map. -/
abbrev GoMap := Option Members

/-- Indexing `m[k]`; reading a nil map gives the zero value like a missing key does. -/
def GoMap.index (m : GoMap) (k : String) : Option JSON :=
  match m with
  | none => none
  | some ms => Members.lookup k ms

/-- Type assertion `x.([]interface{})` in its two-result form: `none` is `ok == false`.
A JSON `null` is the nil interface and fails every assertion. -/
def asSlice : Option JSON → Option (List JSON)
  | some (.arr xs) => some xs
  | _ => none

/-- Type assertion `x.(string)` in its two-result form. -/
def asString : Option JSON → Option String
  | some (.str s) => some s
  | _ => none

/-- Type assertion `x.(map[string]interface{})` in its two-result form. -/
def asMap : Option JSON → Option Members
  | some (.obj ms) => some ms
  | _ => none

/-! ## The scanner and decoder of `encoding/json` -/

/-- JSON white space. -/
def isSpaceJSON (c : Char) : Bool := c = ' ' || c = '\t' || c = '\r' || c = '\n'

/-- Value of a hexadecimal digit. -/
def hexVal (c : Char) : Option Nat :=
  if '0' ≤ c ∧ c ≤ '9' then some (c.toNat - 48)
  else if 'a' ≤ c ∧ c ≤ 'f' then some (c.toNat - 87)
  else if 'A' ≤ c ∧ c ≤ 'F' then some (c.toNat - 55)
  else none

/-- Is the character a decimal digit. -/
def isDigit (c : Char) : Bool := decide ('0' ≤ c ∧ c ≤ '9')

/-- Turns the code units of a string literal into text: a high surrogate followed by a low
surrogate (both can only come from `\u` escapes) is one character, any other surrogate is
U+FFFD. -/
def decodeUnits : List Nat → List Char
  | [] => []
  | [u] => [if 0xD800 ≤ u ∧ u ≤ 0xDFFF then Char.ofNat 0xFFFD else Char.ofNat u]
  | u :: v :: rest =>
    if 0xD800 ≤ u ∧ u ≤ 0xDBFF ∧ 0xDC00 ≤ v ∧ v ≤ 0xDFFF then
      Char.ofNat (0x10000 + (u - 0xD800) * 0x400 + (v - 0xDC00)) :: decodeUnits rest
    else if 0xD800 ≤ u ∧ u ≤ 0xDFFF then Char.ofNat 0xFFFD :: decodeUnits (v :: rest)
    else Char.ofNat u :: decodeUnits (v :: rest)

/-- Where the scanner is inside a number literal. -/
inductive NumState where
  | neg | zero | int | dot | frac | exp | expSign | expDigits
  deriving DecidableEq

/-- Can a number literal end in this state. -/
def NumState.complete : NumState → Bool
  | .zero | .int | .frac | .expDigits => true
  | _ => false

/-- A container the scanner is inside of: the elements of an array read so far (most
recent first), or the entries of an object read so far and the key being read. -/
inductive Frame where
  | array (done : List JSON)
  | object (done : Members) (key : String)

/-- What the scanner expects next. -/
inductive Expect where
  | value
  | valueOrClose
  | keyOrClose
  | key
  | colon
  | afterValue
  | inString (isKey : Bool) (acc : List Nat)
  | inEscape (isKey : Bool) (acc : List Nat)
  | inUnicode (isKey : Bool) (acc : List Nat) (digits : List Nat)
  | number (st : NumState) (acc : List Char)
  | literal (rest : List Char) (v : JSON)

/-- State of the scanner: running inside `stack`, finished with the top-level value (and
whether only white space followed it), or stopped at a syntax error. -/
inductive Scan where
  | run (stack : List Frame) (expect : Expect)
  | done (v : JSON) (clean : Bool)
  | error

/-- Nesting limit of `encoding/json`. -/
def maxNestingDepth : Nat := 10000

/-- A value is complete: it is the top-level value, the next array element, or the value
of the pending key. -/
def completeValue (stack : List Frame) (v : JSON) : Scan :=
  match stack with
  | [] => .done v true
  | .array done :: rest => .run (.array (v :: done) :: rest) .afterValue
  | .object done key :: rest => .run (.object (Members.assign key v done) key :: rest) .afterValue

/-- A string literal is complete: a key is kept in the object frame, a value is stored. -/
def completeString (stack : List Frame) (isKey : Bool) (acc : List Nat) : Scan :=
  let s := String.mk (decodeUnits acc.reverse)
  if isKey then
    match stack with
    | .object done _ :: rest => .run (.object done s :: rest) .colon
    | _ => .error
  else completeValue stack (.str s)

/-- One character after a complete value inside a container. -/
def stepAfterValue (stack : List Frame) (c : Char) : Scan :=
  if isSpaceJSON c then .run stack .afterValue
  else
    match stack with
    | [] => .error
    | .array done :: rest =>
      if c = ',' then .run stack .value
      else if c = ']' then completeValue rest (.arr done.reverse)
      else .error
    | .object done _ :: rest =>
      if c = ',' then .run stack .key
      else if c = '}' then completeValue rest (.obj done)
      else .error

/-- One character where a value begins. -/
def stepValue (stack : List Frame) (c : Char) : Scan :=
  if isSpaceJSON c then .run stack .value
  else if c = '{' then
    if stack.length + 1 ≤ maxNestingDepth then .run (.object [] "" :: stack) .keyOrClose
    else .error
  else if c = '[' then
    if stack.length + 1 ≤ maxNestingDepth then .run (.array [] :: stack) .valueOrClose
    else .error
  else if c = '"' then .run stack (.inString false [])
  else if c = '-' then .run stack (.number .neg [c])
  else if c = '0' then .run stack (.number .zero [c])
  else if isDigit c then .run stack (.number .int [c])
  else if c = 't' then .run stack (.literal ['r', 'u', 'e'] (.bool true))
  else if c = 'f' then .run stack (.literal ['a', 'l', 's', 'e'] (.bool false))
  else if c = 'n' then .run stack (.literal ['u', 'l', 'l'] .null)
  else .error

/-- A number literal ends before `c`: the number is stored and `c` is read after it. -/
def endNumber (stack : List Frame) (acc : List Char) (c : Char) : Scan :=
  match completeValue stack (.num (String.mk acc.reverse)) with
  | .done v _ => .done v (isSpaceJSON c)
  | .run stack' _ => stepAfterValue stack' c
  | .error => .error

/-- One character inside a number literal. -/
def stepNumber (stack : List Frame) (st : NumState) (acc : List Char) (c : Char) : Scan :=
  let go (st' : NumState) : Scan := .run stack (.number st' (c :: acc))
  match st with
  | .neg => if c = '0' then go .zero else if isDigit c then go .int else .error
  | .zero =>
    if c = '.' then go .dot else if c = 'e' ∨ c = 'E' then go .exp else endNumber stack acc c
  | .int =>
    if isDigit c then go .int else if c = '.' then go .dot
    else if c = 'e' ∨ c = 'E' then go .exp else endNumber stack acc c
  | .dot => if isDigit c then go .frac else .error
  | .frac =>
    if isDigit c then go .frac else if c = 'e' ∨ c = 'E' then go .exp
    else endNumber stack acc c
  | .exp => if c = '+' ∨ c = '-' then go .expSign else if isDigit c then go .expDigits else .error
  | .expSign => if isDigit c then go .expDigits else .error
  | .expDigits => if isDigit c then go .expDigits else endNumber stack acc c

/-- One character after a backslash in a string literal. -/
def stepEscape (stack : List Frame) (isKey : Bool) (acc : List Nat) (c : Char) : Scan :=
  let put (u : Nat) : Scan := .run stack (.inString isKey (u :: acc))
  if c = 'b' then put 8
  else if c = 'f' then put 12
  else if c = 'n' then put 10
  else if c = 'r' then put 13
  else if c = 't' then put 9
  else if c = '\\' ∨ c = '/' ∨ c = '"' then put c.toNat
  else if c = 'u' then .run stack (.inUnicode isKey acc [])
  else .error

/-- The scanner's transition on one character. -/
def step (s : Scan) (c : Char) : Scan :=
  match s with
  | .error => .error
  | .done v clean => .done v (clean && isSpaceJSON c)
  | .run stack expect =>
    match expect with
    | .value => stepValue stack c
    | .valueOrClose =>
      if isSpaceJSON c then .run stack .valueOrClose
      else if c = ']' then
        match stack with
        | .array _ :: rest => completeValue rest (.arr [])
        | _ => .error
      else stepValue stack c
    | .keyOrClose =>
      if isSpaceJSON c then .run stack .keyOrClose
      else if c = '}' then
        match stack with
        | .object _ _ :: rest => completeValue rest (.obj [])
        | _ => .error
      else if c = '"' then .run stack (.inString true [])
      else .error
    | .key =>
      if isSpaceJSON c then .run stack .key
      else if c = '"' then .run stack (.inString true [])
      else .error
    | .colon =>
      if isSpaceJSON c then .run stack .colon
      else if c = ':' then .run stack .value
      else .error
    | .afterValue => stepAfterValue stack c
    | .inString isKey acc =>
      if c = '"' then completeString stack isKey acc
      else if c = '\\' then .run stack (.inEscape isKey acc)
      else if c.toNat < 0x20 then .error
      else .run stack (.inString isKey (c.toNat :: acc))
    | .inEscape isKey acc => stepEscape stack isKey acc c
    | .inUnicode isKey acc digits =>
      match hexVal c with
      | none => .error
      | some d =>
        if digits.length = 3 then
          .run stack (.inString isKey ((d :: digits).reverse.foldl (fun n x => 16 * n + x) 0 :: acc))
        else .run stack (.inUnicode isKey acc (d :: digits))
    | .number st acc => stepNumber stack st acc c
    | .literal rest v =>
      match rest with
      | [] => .error
      | e :: more =>
        if c = e then
          (if more.isEmpty then completeValue stack v else .run stack (.literal more v))
        else .error

/-- The scanner at the end of the input: a number at top level ends there. -/
def finish (s : Scan) : Scan :=
  match s with
  | .run [] (.number st acc) =>
    if st.complete then .done (.num (String.mk acc.reverse)) true else s
  | _ => s

/-- Runs the scanner over a text. -/
def scan (text : String) : Scan := finish (text.data.foldl step (.run [] .value))

/-! ### Numbers: the `float64` range -/

/-- Value of a run of decimal digits. -/
def digitsValue (ds : List Char) : Nat := ds.foldl (fun n c => 10 * n + (c.toNat - 48)) 0

/-- Smallest magnitude that `strconv.ParseFloat` rounds beyond the largest `float64`:
half a unit in the last place above it, `2 ^ 1024 - 2 ^ 970`. -/
def float64Limit : Nat :=
  179769313486231580793728971405303415079934132710037826936173778980444968292764750946649017977587207096330286416692887910946555547851940402630657488671505820681908902000708383676273854845817711531764475730270069855571366959622842914819860834936475292719074168444365510704342711559699508093042880177904174497792

/-- Does the number literal fit a `float64`: `encoding/json` reports a number that
`strconv.ParseFloat` rejects as out of range as an `UnmarshalTypeError`. -/
def float64Fits (lit : String) : Bool :=
  let cs := lit.data.dropWhile (fun c => c = '-')
  let mant := cs.takeWhile (fun c => c ≠ 'e' ∧ c ≠ 'E')
  let expo := (cs.dropWhile (fun c => c ≠ 'e' ∧ c ≠ 'E')).drop 1
  let whole := mant.takeWhile (fun c => c ≠ '.')
  let frac := (mant.dropWhile (fun c => c ≠ '.')).drop 1
  let m := digitsValue (whole ++ frac)
  let e := digitsValue (expo.filter isDigit)
  if expo.head? = some '-' then
    decide (m < float64Limit * 10 ^ (e + frac.length))
  else if frac.length ≤ e then decide (m * 10 ^ (e - frac.length) < float64Limit)
  else decide (m < float64Limit * 10 ^ (frac.length - e))

mutual
/-- Does every number inside the value fit a `float64`. -/
def JSON.fits : JSON → Bool
  | .num lit => float64Fits lit
  | .arr xs => fitsList xs
  | .obj ms => fitsMembers ms
  | _ => true
/-- The check `JSON.fits` over the elements of an array. -/
def fitsList : List JSON → Bool
  | [] => true
  | x :: xs => x.fits && fitsList xs
/-- The check `JSON.fits` over the entries of an object. -/
def fitsMembers : List (String × JSON) → Bool
  | [] => true
  | (_, x) :: ms => x.fits && fitsMembers ms
end

/-! ### Errors and the two decoding entry points -/

/-- The Go `error` values of the program. -/
inductive GoError where
  /-- The value `io.EOF`. -/
  | eof
  /-- The value `io.ErrUnexpectedEOF`. -/
  | unexpectedEOF
  /-- A `*json.SyntaxError`. -/
  | syntaxError
  /-- A `*json.UnmarshalTypeError`. -/
  | unmarshalType
  /-- An error of the HTTP layer: the request could not be built or the round trip failed. -/
  | transport
  /-- An error of `generatePrompt`: the file could not be read, parsed or executed. -/
  | template
  /-- The value `fmt.Errorf("ChatCompletion error: %v", err)`. -/
  | chatCompletion
  /-- The value `errors.New("'devices' key not found or has an invalid type")`. -/
  | devicesKey
  deriving DecidableEq

/-- Storing a decoded top-level value into a nil `map[string]interface{}`: an object
becomes the map, `null` leaves the nil map, anything else is an `UnmarshalTypeError`, and
so is a number that does not fit a `float64`. -/
def toMap (v : JSON) : Except GoError GoMap :=
  match v with
  | .obj ms => if fitsMembers ms then .ok (some ms) else .error .unmarshalType
  | .null => .ok none
  | _ => .error .unmarshalType

/-- The call `json.Unmarshal([]byte(text), &data)` on a nil map: the whole text has to be
one JSON value with white space around it. -/
def Unmarshal (text : String) : Except GoError GoMap :=
  match scan text with
  | .done v true => toMap v
  | _ => .error .syntaxError

/-- The call `json.NewDecoder(strings.NewReader(text)).Decode(&data)` on a nil map: the
first JSON value of the text is decoded and what follows it is not read.  A text that
ends inside the value gives `io.ErrUnexpectedEOF`, a blank text `io.EOF`. -/
def Decode (text : String) : Except GoError GoMap :=
  match scan text with
  | .done v _ => toMap v
  | .error => .error .syntaxError
  | .run _ _ => if text.data.all isSpaceJSON then .error .eof else .error .unexpectedEOF

/-! ## `strings` and `fmt` -/

/-- The predicate `unicode.IsSpace`. -/
def isSpace (c : Char) : Bool :=
  let n := c.toNat
  (9 ≤ n && n ≤ 13) || n = 0x20 || n = 0x85 || n = 0xA0 || n = 0x1680 ||
    (0x2000 ≤ n && n ≤ 0x200A) || n = 0x2028 || n = 0x2029 || n = 0x202F || n = 0x205F ||
    n = 0x3000

/-- Worker of `Fields`: `cur` is the field being read, most recent character first. -/
def fieldsAux : List Char → List Char → List String
  | [], cur => if cur.isEmpty then [] else [String.mk cur.reverse]
  | c :: cs, cur =>
    if isSpace c then
      (if cur.isEmpty then fieldsAux cs [] else String.mk cur.reverse :: fieldsAux cs [])
    else fieldsAux cs (c :: cur)

/-- The function `strings.Fields`: the maximal runs of non-space characters. -/
def Fields (s : String) : List String := fieldsAux s.data []

/-- The function `strings.Join`. -/
def Join : List String → String → String
  | [], _ => ""
  | [a], _ => a
  | a :: b :: rest, sep => a ++ sep ++ Join (b :: rest) sep

/-- Worker of `Split`. -/
def splitAux (sep : Char) : List Char → List Char → List String
  | [], cur => [String.mk cur.reverse]
  | c :: cs, cur =>
    if c = sep then String.mk cur.reverse :: splitAux sep cs [] else splitAux sep cs (c :: cur)

/-- The function `strings.Split` for a separator of one character, as `main` calls it. -/
def Split (s : String) (sep : Char) : List String := splitAux sep s.data []

/-- The function `strings.ReplaceAll` for an old text of one character, as `main` calls
it. -/
def ReplaceAll (s : String) (old : Char) (new : String) : String :=
  String.mk (s.data.flatMap (fun c => if c = old then new.data else [c]))

/-- An operand of a `fmt` call. -/
inductive Arg where
  | str (s : String)
  | int (n : Nat)
  | iface (v : Option JSON)
  | map (m : GoMap)
  | err (e : GoError)

/-- Rendering of one operand under a verb: a string, also inside an `interface{}`, is
printed as it is under `%s` and `%v`; every other value is rendered by `fmtValue`, the
library's formatting, which is not modelled. -/
def renderArg (fmtValue : String → Arg → String) (verb : String) : Arg → String
  | .str s => s
  | .iface (some (.str s)) => s
  | a => fmtValue verb a

/-- Worker of `Sprintf` over the characters of the format. -/
def sprintfAux (fmtValue : String → Arg → String) : List Char → List Arg → List Char
  | [], _ => []
  | '%' :: 's' :: rest, a :: args =>
    (renderArg fmtValue "s" a).data ++ sprintfAux fmtValue rest args
  | '%' :: 'v' :: rest, a :: args =>
    (renderArg fmtValue "v" a).data ++ sprintfAux fmtValue rest args
  | '%' :: '+' :: 'v' :: rest, a :: args =>
    (renderArg fmtValue "+v" a).data ++ sprintfAux fmtValue rest args
  | '%' :: 's' :: rest, [] => "%!s(MISSING)".data ++ sprintfAux fmtValue rest []
  | '%' :: 'v' :: rest, [] => "%!v(MISSING)".data ++ sprintfAux fmtValue rest []
  | '%' :: '+' :: 'v' :: rest, [] => "%!v(MISSING)".data ++ sprintfAux fmtValue rest []
  | c :: rest, args => c :: sprintfAux fmtValue rest args

/-- The function `fmt.Sprintf` for the verbs `%s`, `%v` and `%+v`, the ones `main.go`
uses; every call there passes as many operands as the format has verbs. -/
def Sprintf (fmtValue : String → Arg → String) (format : String) (args : List Arg) : String :=
  String.mk (sprintfAux fmtValue format.data args)

/-- The text `fmt.Println` writes: the operands under `%v`, separated by spaces, and a
newline. -/
def Sprintln (fmtValue : String → Arg → String) (args : List Arg) : String :=
  Join (args.map (renderArg fmtValue "v")) " " ++ "\n"

/-! ## `net/url` -/

/-- The field `RawQuery` of the URL that `url.Parse`, called by `http.NewRequest`, builds
from a text it accepts.  The fragment is cut off at the first `#`; of what is left, the
query is empty when the text ends in its only `?`, and otherwise it is what follows the
first `?`.  (The scheme that `url.Parse` splits off first consists of letters, digits,
`+`, `-` and `.`, so that the cuts fall at the same places on the whole text.) -/
def RawQuery (rawURL : String) : String :=
  let u := rawURL.data.takeWhile (fun c => c ≠ '#')
  if u.getLast? = some '?' ∧ u.count '?' = 1 then ""
  else String.mk ((u.dropWhile (fun c => c ≠ '?')).drop 1)

/-- A text without the characters `?` and `#`, which end the path of a URL. -/
def NoQueryOrFragment (s : String) : Prop := '?' ∉ s.data ∧ '#' ∉ s.data

/-! ## The outside world, traces and runs -/

/-- A request handed to the HTTP layer through a digest transport made for `username`
and `password`. -/
structure Request where
  method : String
  url : String
  username : String
  password : String
  deriving DecidableEq

/-- The two parts of an HTTP response the program reads; the body is delivered whole. -/
structure Response where
  StatusCode : Nat
  Body : String
  deriving DecidableEq

/-- The struct `device` of `main.go`. -/
structure device where
  RestParent : String
  RestURL : String
  NameURLEncoded : String
  Name : String
  deriving DecidableEq

/-- What a run does to the outside world, in order. -/
inductive Event where
  /-- A request is handed to the HTTP layer (`http.NewRequest` and `RoundTrip`). -/
  | request (r : Request)
  /-- A chat completion is asked for this prompt. -/
  | completion (prompt : String)
  /-- Text is written to standard output by `fmt` or `pp`. -/
  | stdout (text : String)
  /-- The zap logger writes a message at a level. -/
  | log (level : Int) (msg : String)
  deriving DecidableEq

/-- The struct `TemplateData` of `main.go`: the values a template is executed on. -/
structure TemplateData where
  UserPrompt : String
  Input : String
  deriving DecidableEq

/-- Why `generatePrompt` can fail. -/
inductive TemplateFailure where
  | read | parse | execute
  deriving DecidableEq

/-- The outside world.  `roundTrip` is `none` when the HTTP layer yields no response (the
request could not be built, or the round trip returned an error); `decodeDevices` is
`encoding/json` decoding a body into `[]device`; `render` reads the named template file
and executes it on the data; `complete` is `CreateChatCompletion`,
giving the message contents of the choices; `fmtValue` is the rendering of non-string
values by `fmt` and `pp`. -/
structure Env where
  roundTrip : List Event → Request → Option Response
  decodeDevices : String → Except GoError (List device)
  render : List Event → String → TemplateData → Except TemplateFailure String
  complete : List Event → String → Option (List String)
  fmtValue : String → Arg → String

/-- The run-time panics of the program. -/
inductive Panic where
  /-- A field of a nil pointer is read. -/
  | nilDereference
  /-- A one-result type assertion fails. -/
  | typeAssertion
  /-- An index is out of range. -/
  | indexOutOfRange
  /-- A slice bound is out of range. -/
  | sliceBounds
  deriving DecidableEq

/-- How a piece of Go code ends: it returns, or it panics. -/
inductive Outcome (α : Type) where
  | ret (a : α)
  | panic (p : Panic)
  deriving DecidableEq

/-- A piece of Go code: from the trace so far to the trace afterwards and the outcome. -/
def Run (α : Type) : Type := List Event → List Event × Outcome α

/-- Returning a value. -/
def Run.pure {α : Type} (a : α) : Run α := fun t => (t, .ret a)

/-- Sequencing: a panic ends the run. -/
def Run.bind {α β : Type} (m : Run α) (f : α → Run β) : Run β := fun t =>
  match m t with
  | (t', .ret a) => f a t'
  | (t', .panic p) => (t', .panic p)

instance : Monad Run where
  pure := Run.pure
  bind := Run.bind

/-- Appends an event to the trace. -/
def emit (e : Event) : Run Unit := fun t => (t ++ [e], .ret ())

/-- Panics. -/
def throwPanic {α : Type} (p : Panic) : Run α := fun t => (t, .panic p)

/-- A pure computation that can panic, as a run. -/
def liftOutcome {α : Type} (o : Outcome α) : Run α := fun t => (t, o)

/-- Hands a request to the HTTP layer, which answers from the trace before it. -/
def roundTrip (env : Env) (r : Request) : Run (Option Response) := fun t =>
  (t ++ [.request r], .ret (env.roundTrip t r))

/-- Reads and executes a template file. -/
def renderTemplate (env : Env) (filename : String) (data : TemplateData) :
    Run (Except TemplateFailure String) := fun t => (t, .ret (env.render t filename data))

/-- Asks the chat endpoint, which answers from the trace before the request. -/
def createChatCompletion (env : Env) (prompt : String) : Run (Option (List String)) := fun t =>
  (t ++ [.completion prompt], .ret (env.complete t prompt))

/-- The requests of a trace, in order. -/
def requestsOf : List Event → List Request
  | [] => []
  | .request r :: es => r :: requestsOf es
  | _ :: es => requestsOf es

/-- The prompts of the chat completions of a trace, in order. -/
def completionsOf : List Event → List String
  | [] => []
  | .completion p :: es => p :: completionsOf es
  | _ :: es => completionsOf es

/-! ### The logger -/

/-- A zap logger: messages below `level` are dropped. -/
structure Logger where
  level : Int

/-- The level `zapcore.DebugLevel`. -/
def DebugLevel : Int := -1
/-- The level `zapcore.InfoLevel`. -/
def InfoLevel : Int := 0
/-- The level `zapcore.ErrorLevel`. -/
def ErrorLevel : Int := 2

/-- The check `logger.Core().Enabled(lvl)`. -/
def Logger.Enabled (logger : Logger) (lvl : Int) : Bool := decide (logger.level ≤ lvl)

/-- Writes a message at a level when the level is enabled. -/
def Logger.write (logger : Logger) (lvl : Int) (msg : String) : Run Unit :=
  if logger.Enabled lvl then emit (.log lvl msg) else Run.pure ()

/-- The method `logger.Debug`. -/
def Logger.Debug (logger : Logger) (msg : String) : Run Unit := logger.write DebugLevel msg
/-- The method `logger.Info`. -/
def Logger.Info (logger : Logger) (msg : String) : Run Unit := logger.write InfoLevel msg
/-- The method `logger.Error`. -/
def Logger.Error (logger : Logger) (msg : String) : Run Unit := logger.write ErrorLevel msg

/-- The option `zap.IncreaseLevel`: the level can only go up. -/
def Logger.IncreaseLevel (logger : Logger) (lvl : Int) : Logger :=
  if logger.level ≤ lvl then { level := lvl } else logger

/-! ## The functions of `main.go` -/

/-- The function `getDeviceList`. -/
def getDeviceList (env : Env) (url username password : String) :
    Run (List device × Option GoError) := do
  let resp ← roundTrip env ⟨"GET", url, username, password⟩
  match resp with
  | none => pure ([], some .transport)
  | some resp =>
    match env.decodeDevices resp.Body with
    | .error e => pure ([], some e)
    | .ok devices => pure (devices, none)

/-- The loop of `printDeviceList`. -/
def printDeviceLines (env : Env) : List device → Run Unit
  | [] => pure ()
  | d :: ds => do
    emit (.stdout (Sprintf env.fmtValue "- %s (%s)\n" [.str d.Name, .str d.RestURL]))
    printDeviceLines env ds

/-- The function `printDeviceList`. -/
def printDeviceList (env : Env) (devices : List device) : Run Unit := do
  emit (.stdout (Sprintln env.fmtValue [.str "Devices:"]))
  printDeviceLines env devices

/-- The URL text `alterDeviceState` builds; it stays empty for a state other than
`off`, `on` and `dim`. -/
def alterDeviceStateURL (env : Env) (deviceName deviceState deviceStateParam ip port : String) :
    String :=
  if deviceState = "off" then
    Sprintf env.fmtValue "http://%s:%s%s?isOn=0" [.str ip, .str port, .str deviceName]
  else if deviceState = "on" then
    Sprintf env.fmtValue "http://%s:%s%s?isOn=1" [.str ip, .str port, .str deviceName]
  else if deviceState = "dim" then
    Sprintf env.fmtValue "http://%s:%s%s?brightness=%s"
      [.str ip, .str port, .str deviceName, .str deviceStateParam]
  else ""

/-- The request `alterDeviceState` hands to the HTTP layer: the method and the URL text
it gives `http.NewRequest`, and the credentials of its digest transport. -/
def alterDeviceStateRequest (env : Env)
    (deviceName deviceState deviceStateParam ip port username password : String) : Request :=
  ⟨"PUT", alterDeviceStateURL env deviceName deviceState deviceStateParam ip port,
    username, password⟩

/-- The function `alterDeviceState`.  The errors of `http.NewRequest` and of `RoundTrip`
are dropped, and the status code of the response is read before the response is compared
with nil: without a response the function panics. -/
def alterDeviceState (env : Env)
    (deviceName deviceState deviceStateParam ip port username password : String) :
    Run (GoMap × Option GoError) := do
  let resp ← roundTrip env
    (alterDeviceStateRequest env deviceName deviceState deviceStateParam ip port username password)
  match resp with
  | none => throwPanic .nilDereference
  | some resp =>
    emit (.stdout (env.fmtValue "pp" (.int resp.StatusCode)))
    if resp.StatusCode = 401 then pure (some [("status", .str "ok")], none)
    else
      match Decode resp.Body with
      | .error e => pure (none, some e)
      | .ok device => pure (device, none)

/-- The function `getDeviceInfo`. -/
def getDeviceInfo (env : Env) (deviceName ip port username password : String) :
    Run (GoMap × Option GoError) := do
  let url := Sprintf env.fmtValue "http://%s:%s%s" [.str ip, .str port, .str deviceName]
  let resp ← roundTrip env ⟨"GET", url, username, password⟩
  match resp with
  | none => pure (none, some .transport)
  | some resp =>
    match Decode resp.Body with
    | .error e => pure (none, some e)
    | .ok device => pure (device, none)

/-- The function `getDeviceInfoPath`. -/
def getDeviceInfoPath (env : Env) (deviceURL ip port username password : String) :
    Run (GoMap × Option GoError) := do
  let url := Sprintf env.fmtValue "http://%s:%s%s" [.str ip, .str port, .str deviceURL]
  let resp ← roundTrip env ⟨"GET", url, username, password⟩
  match resp with
  | none => pure (none, some .transport)
  | some resp =>
    match Decode resp.Body with
    | .error e => pure (none, some e)
    | .ok device => pure (device, none)

/-- The loop of `printDeviceInfo`, over the entries in the order they are stored (Go
leaves the order open). -/
def printDeviceEntries (env : Env) : Members → Run Unit
  | [] => pure ()
  | (key, value) :: ms => do
    emit (.stdout (Sprintf env.fmtValue "%s: %v\n" [.str key, .iface (some value)]))
    printDeviceEntries env ms

/-- The function `printDeviceInfo`. -/
def printDeviceInfo (env : Env) (device : GoMap) : Run Unit := do
  emit (.stdout (Sprintln env.fmtValue [.str "Device information:"]))
  printDeviceEntries env (device.getD [])

/-- The function `generatePrompt`. -/
def generatePrompt (env : Env) (logger : Logger) (input prompt filename : String) :
    Run (String × Option GoError) := do
  let data : TemplateData := { UserPrompt := prompt, Input := input }
  let r ← renderTemplate env filename data
  match r with
  | .error .read => do
    logger.Error "Error reading file"
    pure ("", some .template)
  | .error .parse => do
    logger.Error "Error parsing template"
    pure ("", some .template)
  | .error .execute => do
    logger.Error "Error executing template"
    pure ("", some .template)
  | .ok output => pure (output, none)

/-- The slice expression `fields[len(fields)-10:]`: it panics when the start is
negative. -/
def lastTen (fields : List String) : Outcome (List String) :=
  let start : Int := (fields.length : Int) - 10
  if start < 0 then .panic .sliceBounds else .ret (fields.drop start.toNat)

/-- The first statement of `sendPromptString`: the truncated prompt. -/
def truncatePrompt (prompt : String) : Outcome String :=
  match lastTen (Fields prompt) with
  | .panic p => .panic p
  | .ret fields => .ret (Join fields " ")

/-- The end of `sendPromptString`: an error of the completion is wrapped and returned,
otherwise the result is `resp.Choices[0].Message.Content`, which panics without a
choice. -/
def firstChoice (resp : Option (List String)) : Run (String × Option GoError) :=
  match resp with
  | none => pure ("", some .chatCompletion)
  | some [] => throwPanic .indexOutOfRange
  | some (choice :: _) => pure (choice, none)

/-- The function `sendPromptString`. -/
def sendPromptString (env : Env) (logger : Logger) (prompt : String) :
    Run (String × Option GoError) := do
  let truncatedPrompt ← liftOutcome (truncatePrompt prompt)
  (if logger.Enabled DebugLevel then
    logger.Debug (Sprintf env.fmtValue "Prompt sent to LLM: ``` %s ```" [.str prompt])
  else
    logger.Info
      (Sprintf env.fmtValue "Truncated prompt sent to LLM: ``` %s ```" [.str truncatedPrompt]))
  let resp ← createChatCompletion env prompt
  firstChoice resp

/-- The decoding at the head of `parseAIrequest`: `json.Unmarshal`, and on any error one
`}` is appended and the text is decoded again, with a `Decoder`. -/
def decodeSelection (request : String) : Except GoError GoMap :=
  match Unmarshal request with
  | .ok data => .ok data
  | .error _ => Decode (request ++ "\x7d")

/-- The loop of `parseAIrequest` over the device paths; `deviceString` is the text
gathered so far. -/
def lookupDevices (env : Env) (ip port username password : String) :
    List JSON → String → Run String
  | [], deviceString => pure deviceString
  | path :: rest, deviceString =>
    match asString (some path) with
    | none => throwPanic .typeAssertion
    | some devicePath => do
      let (deviceInfo, err) ← getDeviceInfoPath env devicePath ip port username password
      match err with
      | some e => do
        emit (.stdout (Sprintln env.fmtValue
          [.str "Error in praseAIrequest: Couldn't parse device. ", .err e]))
        lookupDevices env ip port username password rest deviceString
      | none =>
        lookupDevices env ip port username password rest
          (deviceString ++ (Sprintf env.fmtValue "%s %+v" [.str devicePath, .map deviceInfo]
            ++ "\n") ++ "\n")

/-- The function `parseAIrequest`.  The type assertion on `data["devicePaths"]` has one
result: it panics when the key is missing or holds no array. -/
def parseAIrequest (env : Env) (logger : Logger)
    (request prompt filename ip port username password : String) :
    Run (String × Option GoError) :=
  match decodeSelection request with
  | .error e => pure ("Error", some e)
  | .ok data =>
    match asSlice (data.index "devicePaths") with
    | none => throwPanic .typeAssertion
    | some devicePaths => do
      let deviceString ← lookupDevices env ip port username password devicePaths ""
      let (promptText, _) ← generatePrompt env logger deviceString prompt filename
      let (output, err) ← sendPromptString env logger promptText
      match err with
      | some _ => pure ("Error", none)
      | none => pure (output, none)

/-- The decoding at the head of `CheckDesiredState`: a `Decoder`, and on
`io.ErrUnexpectedEOF` one `}` is appended and the text is decoded again. -/
def decodeDesiredStates (jsonData : String) : Except GoError GoMap :=
  match Decode jsonData with
  | .ok data => .ok data
  | .error e => if e = .unexpectedEOF then Decode (jsonData ++ "\x7d") else .error e

/-- The body of the loop of `CheckDesiredState` for one entry.  The type assertion on
`deviceMap["devicePath"]` has one result: it panics when the key is missing or holds no
string. -/
def applyDevice (env : Env) (logger : Logger) (ip port username password : String)
    (device : JSON) : Run Unit :=
  match asMap (some device) with
  | none => emit (.stdout (env.fmtValue "pp" (.str "invalid device format?")))
  | some deviceMap =>
    match asString (Members.lookup "desiredState" deviceMap) with
    | none => pure ()
    | some desiredState =>
      if desiredState = "on" then do
        logger.Info (Sprintf env.fmtValue "The device %s is turning on"
          [.iface (Members.lookup "devicePath" deviceMap)])
        match asString (Members.lookup "devicePath" deviceMap) with
        | none => throwPanic .typeAssertion
        | some devicePath => do
          let _ ← alterDeviceState env devicePath "on" "" ip port username password
          pure ()
      else if desiredState = "off" then do
        logger.Info (Sprintf env.fmtValue "The device %s is turning off"
          [.iface (Members.lookup "devicePath" deviceMap)])
        match asString (Members.lookup "devicePath" deviceMap) with
        | none => throwPanic .typeAssertion
        | some devicePath => do
          let _ ← alterDeviceState env devicePath "off" "" ip port username password
          pure ()
      else pure ()

/-- The loop of `CheckDesiredState`. -/
def applyDevices (env : Env) (logger : Logger) (ip port username password : String) :
    List JSON → Run Unit
  | [] => pure ()
  | device :: rest => do
    applyDevice env logger ip port username password device
    applyDevices env logger ip port username password rest

/-- The function `CheckDesiredState`; the result is its `error`. -/
def CheckDesiredState (env : Env) (logger : Logger)
    (jsonData ip port username password : String) : Run (Option GoError) := do
  logger.Info (Sprintf env.fmtValue "Interpreting the desired state" [])
  match decodeDesiredStates jsonData with
  | .error e => pure (some e)
  | .ok data =>
    logger.Info (Sprintf env.fmtValue "Response from LLM: %s" [.iface (data.index "text")])
    match asSlice (data.index "devices") with
    | none => do
      logger.Error (Sprintf env.fmtValue "'devices' key not found or has an invalid type" [])
      pure (some .devicesKey)
    | some devices => do
      applyDevices env logger ip port username password devices
      pure none

/-! ### The entry point -/

/-- The command-line flags. -/
structure Flags where
  ip : String
  port : String
  list : Bool
  openAI : Bool
  deviceName : String
  queryText : String
  alterDeviceStateFlag : Bool
  deviceState : String
  deviceStateParam : String

/-- The values of the flags when none is given. -/
def Flags.defaults : Flags :=
  { ip := "10.10.0.140", port := "8176", list := false, openAI := false, deviceName := "",
    queryText := "Are the kitchen lights on?", alterDeviceStateFlag := false,
    deviceState := "", deviceStateParam := "" }

/-- The constant `verbosity` of `main`. -/
def verbosity : Nat := 1

/-- The logger `main` builds: a core at the info level, adjusted by `verbosity`. -/
def mainLogger : Logger :=
  let logger : Logger := { level := InfoLevel }
  match verbosity with
  | 0 => logger.IncreaseLevel ErrorLevel
  | 1 => logger.IncreaseLevel InfoLevel
  | 2 => logger.IncreaseLevel DebugLevel
  | _ => logger.IncreaseLevel InfoLevel

/-- The index expression `xs[i]`: it panics when `i` is out of range. -/
def indexString (xs : List String) (i : Nat) : Outcome String :=
  match xs.get? i with
  | some x => .ret x
  | none => .panic .indexOutOfRange

/-- The branch of `main` for `-list`. -/
def listBranch (env : Env) (url username password : String) : Run Unit := do
  let (devices, err) ← getDeviceList env url username password
  match err with
  | some e => emit (.stdout (Sprintln env.fmtValue [.str "Error:", .err e]))
  | none => printDeviceList env devices

/-- The branch of `main` for `-device` without `-alterDeviceState`. -/
def infoBranch (env : Env) (f : Flags) (username password : String) : Run Unit := do
  let (deviceInfo, err) ← getDeviceInfo env f.deviceName f.ip f.port username password
  match err with
  | some e => emit (.stdout (Sprintln env.fmtValue [.str "Error:", .err e]))
  | none => printDeviceInfo env deviceInfo

/-- The branch of `main` for `-AI`. -/
def aiBranch (env : Env) (logger : Logger) (f : Flags) (url username password : String) :
    Run Unit := do
  let (devices, err) ← getDeviceList env url username password
  match err with
  | some e => emit (.stdout (Sprintln env.fmtValue [.str "Error:", .err e]))
  | none =>
    let deviceStrings := devices.map
      (fun d => Sprintf env.fmtValue "- %s (%s)" [.str d.Name, .str d.RestURL])
    let deviceString := Join deviceStrings ","
    let (promptText, _) ← generatePrompt env logger deviceString f.queryText "prompt3.txt"
    let (requestResponseFromAI, _) ← sendPromptString env logger promptText
    let requestResponseFromAIstripped := ReplaceAll requestResponseFromAI '\n' ""
    logger.Info (Sprintf env.fmtValue "Response from LLM: %s" [.str requestResponseFromAIstripped])
    let (out, _) ← parseAIrequest env logger requestResponseFromAI f.queryText "prompt2.txt"
      f.ip f.port username password
    let outFromAIstripped := ReplaceAll (ReplaceAll out '\n' "") ' ' ""
    logger.Info (Sprintf env.fmtValue "Response from LLM: %s" [.str outFromAIstripped])
    let err ← CheckDesiredState env logger out f.ip f.port username password
    match err with
    | some e =>
      logger.Error (Sprintf env.fmtValue "changeState returned an error: %s" [.err e])
    | none => pure ()

/-- The branch of `main` for `-alterDeviceState` with a device and a state. -/
def alterBranch (env : Env) (f : Flags) (username password : String) : Run Unit := do
  let (deviceInfo, err) ← alterDeviceState env f.deviceName f.deviceState f.deviceStateParam
    f.ip f.port username password
  match err with
  | some e => emit (.stdout (Sprintln env.fmtValue [.str "alterdeviceState error:", .err e]))
  | none => do
    emit (.stdout (Sprintln env.fmtValue [.str "Device state altered successfully. New state:"]))
    printDeviceInfo env deviceInfo

/-- The usage hint of `main`. -/
def usageHint : String :=
  "No command specified. Use -list to list devices or -device <device name> to get device information."

/-- The last branch of `main`. -/
def usageBranch (env : Env) : Run Unit :=
  emit (.stdout (Sprintln env.fmtValue [.str usageHint]))

/-- The three messages `main` logs at start; the debug one is below the logger's level. -/
def startupLog (logger : Logger) : Run Unit := do
  logger.Error "This is an error message"
  logger.Info "This is an info message"
  logger.Debug "This is a debug message"

/-- The function `main`, given the flags and the value of `INDIGO_AUTH` (empty when the
variable is not set). -/
def main (env : Env) (f : Flags) (auth : String) : Run Unit := do
  let logger := mainLogger
  startupLog logger
  if auth = "" then
    emit (.stdout (Sprintln env.fmtValue [.str "Error: INDIGO_AUTH environment variable not set"]))
  else do
    let username ← liftOutcome (indexString (Split auth ':') 0)
    let password ← liftOutcome (indexString (Split auth ':') 1)
    let url := Sprintf env.fmtValue "http://%s:%s/devices.json" [.str f.ip, .str f.port]
    if f.list then listBranch env url username password
    else if f.deviceName ≠ "" ∧ ¬ f.alterDeviceStateFlag then infoBranch env f username password
    else if f.openAI then aiBranch env logger f url username password
    else if f.alterDeviceStateFlag ∧ f.deviceName ≠ "" ∧ f.deviceState ≠ "" then
      alterBranch env f username password
    else usageBranch env

/-! ## The claims' own vocabulary -/

/-- The four modes of the specification, and the case that none is selected. -/
inductive Mode where
  | list | info | aiQuery | alterState | usage
  deriving DecidableEq

/-- The mode the specification selects: List, Info, AI query, Alter state, in this order
of priority. -/
def selectedMode (f : Flags) : Mode :=
  if f.list = true then .list
  else if f.deviceName ≠ "" ∧ f.alterDeviceStateFlag = false then .info
  else if f.openAI = true then .aiQuery
  else if f.alterDeviceStateFlag = true ∧ f.deviceName ≠ "" ∧ f.deviceState ≠ "" then .alterState
  else .usage

/-- The branch of `main` that belongs to a mode. -/
def runMode (env : Env) (f : Flags) (username password : String) : Mode → Run Unit
  | .list =>
    listBranch env (Sprintf env.fmtValue "http://%s:%s/devices.json" [.str f.ip, .str f.port])
      username password
  | .info => infoBranch env f username password
  | .aiQuery =>
    aiBranch env mainLogger f
      (Sprintf env.fmtValue "http://%s:%s/devices.json" [.str f.ip, .str f.port]) username password
  | .alterState => alterBranch env f username password
  | .usage => usageBranch env

/-- The result `alterDeviceState` returns for a response. -/
def alterDeviceStateResult (resp : Response) : GoMap × Option GoError :=
  if resp.StatusCode = 401 then (some [("status", .str "ok")], none)
  else
    match Decode resp.Body with
    | .error e => (none, some e)
    | .ok device => (device, none)

/-- The device API answers every request: the HTTP layer always yields a response. -/
def Env.answers (env : Env) : Prop := ∀ t r, (env.roundTrip t r).isSome = true

/-- A run that hands no request to the HTTP layer, from any trace. -/
def Quiet {α : Type} (m : Run α) : Prop := ∀ t, requestsOf (m t).1 = requestsOf t

/-- The request `getDeviceInfoPath` hands to the HTTP layer. -/
def getDeviceInfoPathRequest (env : Env) (deviceURL ip port username password : String) :
    Request :=
  ⟨"GET", Sprintf env.fmtValue "http://%s:%s%s" [.str ip, .str port, .str deviceURL],
    username, password⟩

/-- The reply text of the specification's example for a truncated reply:
`{"devicePaths":["/devices/a"`. -/
def truncatedReply : String := "\x7b\"devicePaths\":[\"/devices/a\""

/-- A reply text that lacks its closing brace and nothing else:
`{"devicePaths":["/devices/a"]`. -/
def unclosedReply : String := "\x7b\"devicePaths\":[\"/devices/a\"]"

/-- A reply text that is a JSON object without the key `devicePaths`:
`{"answer":"none"}`. -/
def replyWithoutPaths : String := "\x7b\"answer\":\"none\"\x7d"

/-- A reply text whose `devicePaths` is a string, not a sequence:
`{"devicePaths":"/devices/a"}`. -/
def replyPathsNoSequence : String := "\x7b\"devicePaths\":\"/devices/a\"\x7d"

/-- An entry of the `devices` sequence as the specification describes it: an object with
the string `p` under `devicePath` and the string `s` under `desiredState`. -/
def IsEntry (device : JSON) (p s : String) : Prop :=
  ∃ ms, device = .obj ms ∧ Members.lookup "devicePath" ms = some (.str p)
    ∧ Members.lookup "desiredState" ms = some (.str s)

/-- The reply text of the specification's example for desired states:
`{"devices":[{"devicePath":"/d1","desiredState":"on"},{"devicePath":"/d2","desiredState":"off"}]}`. -/
def desiredStatesReply : String :=
  "\x7b\"devices\":[\x7b\"devicePath\":\"/d1\",\"desiredState\":\"on\"\x7d," ++
    "\x7b\"devicePath\":\"/d2\",\"desiredState\":\"off\"\x7d]\x7d"

/-- A reply text whose first entry is an object without `devicePath`:
`{"devices":[{"desiredState":"on"},{"devicePath":"/d2","desiredState":"off"}]}`. -/
def entryWithoutPathReply : String :=
  "\x7b\"devices\":[\x7b\"desiredState\":\"on\"\x7d," ++
    "\x7b\"devicePath\":\"/d2\",\"desiredState\":\"off\"\x7d]\x7d"

/-- A reply text that is a JSON object without the key `devices`:
`{"text":"nothing to do"}`. -/
def replyWithoutDevices : String := "\x7b\"text\":\"nothing to do\"\x7d"

/-- A prompt of twelve fields. -/
def twelveFieldPrompt : String :=
  "one two three  four\tfive six seven eight\nnine ten eleven twelve "

/-! ## Environments for the concrete runs -/

/-- A world whose device API answers every request with one status and body. -/
def envWith (status : Nat) (body : String) : Env :=
  { roundTrip := fun _ _ => some ⟨status, body⟩
    decodeDevices := fun _ => .ok []
    render := fun _ _ _ => .ok ""
    complete := fun _ _ => none
    fmtValue := fun _ _ => "" }

/-- A world whose device API cannot be reached: no request gets a response. -/
def envDown : Env :=
  { roundTrip := fun _ _ => none
    decodeDevices := fun _ => .ok []
    render := fun _ _ _ => .ok ""
    complete := fun _ _ => none
    fmtValue := fun _ _ => "" }

/-! ## Lemmas on runs and traces -/

@[simp] theorem pure_run {α : Type} (a : α) (t : List Event) :
    (pure a : Run α) t = (t, .ret a) := rfl

@[simp] theorem run_pure_apply {α : Type} (a : α) (t : List Event) :
    (Run.pure a : Run α) t = (t, .ret a) := rfl

theorem bind_run {α β : Type} (m : Run α) (f : α → Run β) (t : List Event) :
    (m >>= f) t = Run.bind m f t := rfl

@[simp] theorem emit_run (e : Event) (t : List Event) : emit e t = (t ++ [e], .ret ()) := rfl

@[simp] theorem throwPanic_run {α : Type} (p : Panic) (t : List Event) :
    (throwPanic p : Run α) t = (t, .panic p) := rfl

@[simp] theorem liftOutcome_run {α : Type} (o : Outcome α) (t : List Event) :
    liftOutcome o t = (t, o) := rfl

@[simp] theorem roundTrip_run (env : Env) (r : Request) (t : List Event) :
    roundTrip env r t = (t ++ [.request r], .ret (env.roundTrip t r)) := rfl

theorem bind_run_eq {α β : Type} (m : Run α) (f : α → Run β) (t : List Event) :
    (m >>= f) t =
      match m t with
      | (t', .ret a) => f a t'
      | (t', .panic p) => (t', .panic p) := rfl

theorem requestsOf_append (a b : List Event) :
    requestsOf (a ++ b) = requestsOf a ++ requestsOf b := by
  induction a with
  | nil => rfl
  | cons e es ih => cases e <;> simp [requestsOf, ih]

theorem completionsOf_append (a b : List Event) :
    completionsOf (a ++ b) = completionsOf a ++ completionsOf b := by
  induction a with
  | nil => rfl
  | cons e es ih => cases e <;> simp [completionsOf, ih]

/-! ## `alterDeviceState` -/

/-- The whole behaviour of `alterDeviceState`: one request; without a response a panic,
with one the status code is printed and the result only depends on the response. -/
theorem alterDeviceState_run (env : Env)
    (deviceName deviceState deviceStateParam ip port username password : String)
    (t : List Event) :
    alterDeviceState env deviceName deviceState deviceStateParam ip port username password t =
      match env.roundTrip t (alterDeviceStateRequest env deviceName deviceState deviceStateParam
        ip port username password) with
      | none =>
        (t ++ [.request (alterDeviceStateRequest env deviceName deviceState deviceStateParam
          ip port username password)], .panic .nilDereference)
      | some resp =>
        (t ++ [.request (alterDeviceStateRequest env deviceName deviceState deviceStateParam
          ip port username password)] ++ [.stdout (env.fmtValue "pp" (.int resp.StatusCode))],
          .ret (alterDeviceStateResult resp)) := by
  unfold alterDeviceState
  simp only [bind_run, Run.bind, roundTrip_run]
  cases h : env.roundTrip t (alterDeviceStateRequest env deviceName deviceState
      deviceStateParam ip port username password) with
  | none => rfl
  | some resp =>
    simp only [emit_run, alterDeviceStateResult]
    by_cases h401 : resp.StatusCode = 401
    · simp [h401, bind_run, Run.bind]
    · simp only [h401, if_false]
      cases hd : Decode resp.Body <;> simp [bind_run, Run.bind]

/-- Cutting at the first `#` of a text without `#` leaves the text. -/
theorem takeWhile_ne_of_not_mem (sep : Char) (l : List Char) (h : sep ∉ l) :
    l.takeWhile (fun c => c ≠ sep) = l := by
  rw [List.takeWhile_eq_self_iff]
  intro x hx
  have hne : x ≠ sep := fun e => h (e ▸ hx)
  simpa using hne

/-- The first `?` of a text is the one that follows a part without `?`. -/
theorem dropWhile_ne_append (sep : Char) (a b : List Char) (h : sep ∉ a) :
    (a ++ sep :: b).dropWhile (fun c => c ≠ sep) = sep :: b := by
  induction a with
  | nil => simp [List.dropWhile]
  | cons c cs ih =>
    have hc : c ≠ sep := fun e => h (e ▸ List.mem_cons_self _ _)
    have hcs : sep ∉ cs := fun e => h (List.mem_cons_of_mem _ e)
    rw [List.cons_append, List.dropWhile_cons, if_pos (by simpa using hc)]
    exact ih hcs

/-- A text that ends in its only `?` has nothing after its first `?`. -/
theorem drop_dropWhile_of_last (u : List Char) (hlast : u.getLast? = some '?')
    (hcount : u.count '?' = 1) : (u.dropWhile (fun c => c ≠ '?')).drop 1 = [] := by
  induction u with
  | nil => simp at hlast
  | cons c cs ih =>
    by_cases hc : c = '?'
    · subst hc
      have h0 : cs.count '?' = 0 := by
        simp only [List.count_cons_self] at hcount
        omega
      have hnot : '?' ∉ cs := List.count_eq_zero.1 h0
      cases cs with
      | nil => simp [List.dropWhile]
      | cons d ds =>
        rw [List.getLast?_cons_cons] at hlast
        exact absurd (List.mem_of_getLast?_eq_some hlast) hnot
    · cases cs with
      | nil =>
        simp at hlast
        exact absurd hlast hc
      | cons d ds =>
        rw [List.getLast?_cons_cons] at hlast
        have hcount' : (d :: ds).count '?' = 1 := by
          rw [List.count_cons_of_ne (Ne.symm hc)] at hcount
          exact hcount
        simpa [List.dropWhile, hc] using ih hlast hcount'

/-- In both cases of `url.Parse` the query is what follows the first `?` of the text
before the first `#`. -/
theorem RawQuery_eq (rawURL : String) :
    RawQuery rawURL = String.mk
      (((rawURL.data.takeWhile (fun c => c ≠ '#')).dropWhile (fun c => c ≠ '?')).drop 1) := by
  unfold RawQuery
  simp only
  split
  · rename_i h
    rw [drop_dropWhile_of_last _ h.1 h.2]
  · rfl

/-- The query of a URL text made of a part without `?` and `#`, a `?`, and a query
without `#`, is that query. -/
theorem RawQuery_append (base query : List Char) (hq : '?' ∉ base) (hf : '#' ∉ base)
    (hquery : '#' ∉ query) : RawQuery (String.mk (base ++ '?' :: query)) = String.mk query := by
  have hall : '#' ∉ base ++ '?' :: query := by
    simp only [List.mem_append, List.mem_cons, not_or]
    exact ⟨hf, by decide, hquery⟩
  rw [RawQuery_eq]
  simp only [takeWhile_ne_of_not_mem '#' _ hall, dropWhile_ne_append '?' base query hq,
    List.drop_succ_cons, List.drop_zero]

/-- C1, counterexample: for the device path `/devices/a#b` and the state `on` the URL text
is `http://10.10.0.140:8176/devices/a#b?isOn=1`, whose query string is empty: `isOn=1` is
part of the fragment.  For the path `/devices/a?x=1` and the state `off` the query string
is `x=1?isOn=0`. -/
theorem alterDeviceState_query_not_exact :
    alterDeviceStateURL envDown "/devices/a#b" "on" "" "10.10.0.140" "8176"
      = "http://10.10.0.140:8176/devices/a#b?isOn=1"
    ∧ RawQuery (alterDeviceStateURL envDown "/devices/a#b" "on" "" "10.10.0.140" "8176") = ""
    ∧ RawQuery (alterDeviceStateURL envDown "/devices/a#b" "on" "" "10.10.0.140" "8176")
      ≠ "isOn=1"
    ∧ RawQuery (alterDeviceStateURL envDown "/devices/a?x=1" "off" "" "10.10.0.140" "8176")
      = "x=1?isOn=0"
    ∧ RawQuery (alterDeviceStateURL envDown "/devices/a?x=1" "off" "" "10.10.0.140" "8176")
      ≠ "isOn=0" := by
  exact ⟨by decide, by decide, by decide, by decide, by decide⟩

/-- C1, amended: for every host, port, device path and parameter `P`, `alterDeviceState`
gives `http.NewRequest` the method `PUT` and exactly the URL text
`http://{host}:{port}{path}` followed by `?isOn=0` for the state `off`, by `?isOn=1` for
`on`, and by `?brightness=` and `P` for `dim`; when host, port and path contain neither
`?` nor `#` (and, for `dim`, `P` contains no `#`), the query string of that URL is exactly
`isOn=0`, `isOn=1` or `brightness=` followed by `P`. -/
theorem alterDeviceState_url_and_query (env : Env)
    (ip port deviceName P username password : String) :
    (alterDeviceStateRequest env deviceName "off" P ip port username password
        = ⟨"PUT", "http://" ++ ip ++ ":" ++ port ++ deviceName ++ "?" ++ "isOn=0",
            username, password⟩
      ∧ alterDeviceStateRequest env deviceName "on" P ip port username password
        = ⟨"PUT", "http://" ++ ip ++ ":" ++ port ++ deviceName ++ "?" ++ "isOn=1",
            username, password⟩
      ∧ alterDeviceStateRequest env deviceName "dim" P ip port username password
        = ⟨"PUT", "http://" ++ ip ++ ":" ++ port ++ deviceName ++ "?" ++ ("brightness=" ++ P),
            username, password⟩)
    ∧ (NoQueryOrFragment ip → NoQueryOrFragment port → NoQueryOrFragment deviceName →
        RawQuery (alterDeviceStateURL env deviceName "off" P ip port) = "isOn=0"
        ∧ RawQuery (alterDeviceStateURL env deviceName "on" P ip port) = "isOn=1"
        ∧ ('#' ∉ P.data →
          RawQuery (alterDeviceStateURL env deviceName "dim" P ip port) = "brightness=" ++ P)) := by
  constructor
  · simp [alterDeviceStateRequest, alterDeviceStateURL, Sprintf, sprintfAux, renderArg,
      String.ext_iff]
  · intro hip hport hname
    have hq : '?' ∉ "http://".data ++ ip.data ++ ":".data ++ port.data ++ deviceName.data := by
      simp only [List.mem_append, not_or]
      exact ⟨⟨⟨⟨by decide, hip.1⟩, by decide⟩, hport.1⟩, hname.1⟩
    have hf : '#' ∉ "http://".data ++ ip.data ++ ":".data ++ port.data ++ deviceName.data := by
      simp only [List.mem_append, not_or]
      exact ⟨⟨⟨⟨by decide, hip.2⟩, by decide⟩, hport.2⟩, hname.2⟩
    have hurl : ∀ (state : String) (query : List Char),
        alterDeviceStateURL env deviceName state P ip port
          = String.mk (("http://".data ++ ip.data ++ ":".data ++ port.data ++ deviceName.data)
            ++ '?' :: query) →
        '#' ∉ query →
        RawQuery (alterDeviceStateURL env deviceName state P ip port) = String.mk query := by
      intro state query h hquery
      rw [h]
      exact RawQuery_append _ _ hq hf hquery
    refine ⟨?_, ?_, fun hP => ?_⟩
    · exact hurl "off" "isOn=0".data
        (by simp [alterDeviceStateURL, Sprintf, sprintfAux, renderArg, String.ext_iff])
        (by decide)
    · exact hurl "on" "isOn=1".data
        (by simp [alterDeviceStateURL, Sprintf, sprintfAux, renderArg, String.ext_iff])
        (by decide)
    · have := hurl "dim" ("brightness=".data ++ P.data)
        (by simp [alterDeviceStateURL, Sprintf, sprintfAux, renderArg, String.ext_iff])
        (by
          simp only [List.mem_append, not_or]
          exact ⟨by decide, hP⟩)
      rw [this]
      apply String.ext
      simp

/-- C1, amended, at the device `/devices/office-lamp` of the host `127.0.0.1`, port
`8176`, dimmed to `40`. -/
theorem alterDeviceState_url_and_query_witness :
    RawQuery (alterDeviceStateURL envDown "/devices/office-lamp" "off" "40" "127.0.0.1" "8176")
        = "isOn=0"
    ∧ RawQuery (alterDeviceStateURL envDown "/devices/office-lamp" "on" "40" "127.0.0.1" "8176")
        = "isOn=1"
    ∧ RawQuery (alterDeviceStateURL envDown "/devices/office-lamp" "dim" "40" "127.0.0.1" "8176")
        = "brightness=" ++ "40" :=
  have hip : NoQueryOrFragment "127.0.0.1" := by unfold NoQueryOrFragment; decide
  have hport : NoQueryOrFragment "8176" := by unfold NoQueryOrFragment; decide
  have hname : NoQueryOrFragment "/devices/office-lamp" := by unfold NoQueryOrFragment; decide
  have h := (alterDeviceState_url_and_query envDown "127.0.0.1" "8176" "/devices/office-lamp"
    "40" "user" "secret").2 hip hport hname
  ⟨h.1, h.2.1, h.2.2 (by decide)⟩

/-- C2: whenever the response to the request of `alterDeviceState` has status 401, the
call returns the map with the single entry `status: "ok"` and a nil error, whatever the
body of the response is. -/
theorem alterDeviceState_unauthorized_ok (env : Env)
    (deviceName deviceState deviceStateParam ip port username password body : String)
    (t : List Event)
    (h : env.roundTrip t (alterDeviceStateRequest env deviceName deviceState deviceStateParam
      ip port username password) = some ⟨401, body⟩) :
    (alterDeviceState env deviceName deviceState deviceStateParam ip port username password t).2
      = .ret (some [("status", .str "ok")], none) := by
  rw [alterDeviceState_run, h]
  simp [alterDeviceStateResult]

/-- C2 at a device API that answers 401 with a body that is no JSON. -/
theorem alterDeviceState_unauthorized_ok_witness :
    (envWith 401 "Unauthorized").roundTrip []
        (alterDeviceStateRequest (envWith 401 "Unauthorized") "/devices/lamp" "on" ""
          "10.10.0.140" "8176" "user" "secret") = some ⟨401, "Unauthorized"⟩
    ∧ (alterDeviceState (envWith 401 "Unauthorized") "/devices/lamp" "on" ""
        "10.10.0.140" "8176" "user" "secret" []).2 = .ret (some [("status", .str "ok")], none) :=
  ⟨rfl, alterDeviceState_unauthorized_ok (envWith 401 "Unauthorized") "/devices/lamp" "on" ""
    "10.10.0.140" "8176" "user" "secret" "Unauthorized" [] rfl⟩

/-- C3, counterexample: a response with status 500 whose body is a JSON object does not
make `alterDeviceState` fail: the body comes back as the device detail, the error is
nil. -/
theorem alterDeviceState_status_500_returns_detail :
    (alterDeviceState (envWith 500 "\x7b\"error\":\"unknown device\"\x7d") "/devices/lamp" "on" ""
        "10.10.0.140" "8176" "user" "secret" []).2
      = .ret (some [("error", .str "unknown device")], none) := by
  rw [alterDeviceState_run]
  rfl

/-- C3, amended: for a response whose status is not 401, 2xx or not, `alterDeviceState`
does not look at the status: it returns an error and no device detail exactly when the
body does not decode, and the decoded body with a nil error when it does. -/
theorem alterDeviceState_result_from_body (env : Env)
    (deviceName deviceState deviceStateParam ip port username password : String)
    (t : List Event) (resp : Response)
    (h : env.roundTrip t (alterDeviceStateRequest env deviceName deviceState deviceStateParam
      ip port username password) = some resp)
    (hstatus : resp.StatusCode ≠ 401) :
    (∀ e, Decode resp.Body = .error e →
      (alterDeviceState env deviceName deviceState deviceStateParam ip port username password t).2
        = .ret (none, some e))
    ∧ (∀ device, Decode resp.Body = .ok device →
      (alterDeviceState env deviceName deviceState deviceStateParam ip port username password t).2
        = .ret (device, none)) := by
  rw [alterDeviceState_run, h]
  constructor
  · intro e he
    simp [alterDeviceStateResult, hstatus, he]
  · intro device hd
    simp [alterDeviceStateResult, hstatus, hd]

/-- C3, amended, at a device API that answers 404 with a body that is no JSON: the
decoding error is returned and no detail. -/
theorem alterDeviceState_result_from_body_witness :
    (alterDeviceState (envWith 404 "not found") "/devices/lamp" "off" ""
        "10.10.0.140" "8176" "user" "secret" []).2 = .ret (none, some .syntaxError) :=
  (alterDeviceState_result_from_body (envWith 404 "not found") "/devices/lamp" "off" ""
    "10.10.0.140" "8176" "user" "secret" [] ⟨404, "not found"⟩ rfl (by decide)).1
      .syntaxError rfl

/-! ## Runs that issue no request -/

theorem quiet_pure {α : Type} (a : α) : Quiet (pure a : Run α) := fun _ => rfl

theorem quiet_bind {α β : Type} {m : Run α} {f : α → Run β} (hm : Quiet m)
    (hf : ∀ a, Quiet (f a)) : Quiet (m >>= f) := by
  intro t
  rw [bind_run_eq]
  have h := hm t
  rcases hmt : m t with ⟨t', o⟩
  rw [hmt] at h
  cases o with
  | ret a => simpa [h] using hf a t'
  | panic p => simpa using h

theorem quiet_write (logger : Logger) (lvl : Int) (msg : String) :
    Quiet (logger.write lvl msg) := by
  intro t
  unfold Logger.write
  split <;> simp [requestsOf_append, requestsOf]

theorem quiet_generatePrompt (env : Env) (logger : Logger) (input prompt filename : String) :
    Quiet (generatePrompt env logger input prompt filename) := by
  unfold generatePrompt
  refine quiet_bind (fun _ => rfl) (fun r => ?_)
  rcases r with (_ | _ | _) | _
  · exact quiet_bind (quiet_write _ _ _) (fun _ => quiet_pure _)
  · exact quiet_bind (quiet_write _ _ _) (fun _ => quiet_pure _)
  · exact quiet_bind (quiet_write _ _ _) (fun _ => quiet_pure _)
  · exact quiet_pure _

theorem quiet_sendPromptString (env : Env) (logger : Logger) (prompt : String) :
    Quiet (sendPromptString env logger prompt) := by
  unfold sendPromptString
  refine quiet_bind (fun _ => rfl) (fun _ => quiet_bind ?_ (fun _ => quiet_bind ?_ ?_))
  · split
    · exact quiet_write _ _ _
    · exact quiet_write _ _ _
  · intro t
    simp [createChatCompletion, requestsOf_append, requestsOf]
  · intro resp
    rcases resp with _ | _ | _
    · exact quiet_pure _
    · exact fun _ => rfl
    · exact quiet_pure _

/-! ## `parseAIrequest` -/

/-- The whole behaviour of `getDeviceInfoPath`: one request, never a panic. -/
theorem getDeviceInfoPath_run (env : Env) (deviceURL ip port username password : String)
    (t : List Event) :
    ∃ r, getDeviceInfoPath env deviceURL ip port username password t =
      (t ++ [.request (getDeviceInfoPathRequest env deviceURL ip port username password)],
        .ret r) := by
  unfold getDeviceInfoPath
  simp only [bind_run, Run.bind, roundTrip_run, getDeviceInfoPathRequest]
  cases env.roundTrip t ⟨"GET",
      Sprintf env.fmtValue "http://%s:%s%s" [.str ip, .str port, .str deviceURL],
      username, password⟩ with
  | none => exact ⟨_, rfl⟩
  | some resp =>
    cases hd : Decode resp.Body with
    | error e => exact ⟨(none, some e), by simp [hd]⟩
    | ok device => exact ⟨(device, none), by simp [hd]⟩

/-- The loop of `parseAIrequest` over paths that are all strings looks each of them up
once, in order, and returns. -/
theorem lookupDevices_requests (env : Env) (ip port username password : String)
    (paths : List String) (deviceString : String) (t : List Event) :
    ∃ t' s, lookupDevices env ip port username password (paths.map JSON.str) deviceString t
        = (t', .ret s)
      ∧ requestsOf t' = requestsOf t ++
          paths.map (fun path => getDeviceInfoPathRequest env path ip port username password) := by
  induction paths generalizing deviceString t with
  | nil => exact ⟨t, deviceString, rfl, by simp⟩
  | cons path rest ih =>
    obtain ⟨r, hr⟩ := getDeviceInfoPath_run env path ip port username password t
    rcases r with ⟨deviceInfo, err⟩
    simp only [List.map_cons, lookupDevices, asString, bind_run, Run.bind, hr]
    cases err with
    | none =>
      obtain ⟨t', s, h1, h2⟩ := ih
        (deviceString ++ (Sprintf env.fmtValue "%s %+v" [.str path, .map deviceInfo] ++ "\n")
          ++ "\n")
        (t ++ [.request (getDeviceInfoPathRequest env path ip port username password)])
      refine ⟨t', s, h1, ?_⟩
      rw [h2]
      simp [requestsOf_append, requestsOf]
    | some e =>
      obtain ⟨t', s, h1, h2⟩ := ih deviceString
        (t ++ [.request (getDeviceInfoPathRequest env path ip port username password)] ++
          [.stdout (Sprintln env.fmtValue
            [.str "Error in praseAIrequest: Couldn't parse device. ", .err e])])
      refine ⟨t', s, ?_, ?_⟩
      · simp only [bind_run, Run.bind, emit_run]
        exact h1
      · rw [h2]
        simp [requestsOf_append, requestsOf]

theorem decodeSelection_truncatedReply :
    Unmarshal truncatedReply = .error .syntaxError
    ∧ Decode (truncatedReply ++ "\x7d") = .error .syntaxError
    ∧ decodeSelection truncatedReply = .error .syntaxError := ⟨rfl, rfl, rfl⟩

theorem decodeSelection_unclosedReply :
    Unmarshal unclosedReply = .error .syntaxError
    ∧ decodeSelection unclosedReply = .ok (some [("devicePaths", .arr [.str "/devices/a"])]) :=
  ⟨rfl, rfl⟩

/-- After the lookups `parseAIrequest` issues no further request to the device API. -/
theorem parseAIrequest_requests_of_paths (env : Env) (logger : Logger)
    (request prompt filename ip port username password : String) (paths : List String)
    (t : List Event)
    (h : decodeSelection request = .ok (some [("devicePaths", .arr (paths.map JSON.str))])) :
    requestsOf (parseAIrequest env logger request prompt filename ip port username password t).1
      = requestsOf t ++
        paths.map (fun path => getDeviceInfoPathRequest env path ip port username password) := by
  obtain ⟨t', s, h1, h2⟩ := lookupDevices_requests env ip port username password paths "" t
  have hq : Quiet (do
      let (promptText, _) ← generatePrompt env logger s prompt filename
      let (output, err) ← sendPromptString env logger promptText
      match err with
      | some _ => pure ("Error", none)
      | none => (pure (output, none) : Run (String × Option GoError))) := by
    refine quiet_bind (quiet_generatePrompt _ _ _ _ _) (fun r => ?_)
    refine quiet_bind (quiet_sendPromptString _ _ _) (fun r' => ?_)
    rcases r' with ⟨output, _ | e⟩
    · exact quiet_pure _
    · exact quiet_pure _
  have := hq t'
  simp only [parseAIrequest, h, GoMap.index, Members.lookup, asSlice, if_true, bind_run,
    Run.bind, h1]
  rw [← h2]
  exact this

/-- C4, counterexample: on the text `{"devicePaths":["/devices/a"` the repaired text
`{"devicePaths":["/devices/a"}` is no JSON either, and `parseAIrequest` returns the
string `Error` and the decoding error, having looked up no device. -/
theorem parseAIrequest_truncatedReply_fails :
    Decode (truncatedReply ++ "\x7d") = .error .syntaxError
    ∧ parseAIrequest (envWith 200 "\x7b\x7d") mainLogger truncatedReply
        "Are the kitchen lights on?" "prompt2.txt" "10.10.0.140" "8176" "user" "secret" []
      = ([], .ret ("Error", some .syntaxError)) := ⟨rfl, rfl⟩

/-- C4, amended: on the text `{"devicePaths":["/devices/a"]`, which lacks its closing
brace only, strict decoding fails, decoding succeeds after one `}` is appended, and the
devices `parseAIrequest` then looks up are exactly `/devices/a`; on the text
`{"devicePaths":["/devices/a"`, which also lacks the closing bracket, the repaired text
does not decode and `parseAIrequest` returns that error without looking up a device. -/
theorem parseAIrequest_repairs_missing_brace (env : Env) (logger : Logger)
    (prompt filename ip port username password : String) (t : List Event) :
    (Unmarshal unclosedReply = .error .syntaxError
      ∧ Decode (unclosedReply ++ "\x7d")
        = .ok (some [("devicePaths", .arr [.str "/devices/a"])]))
    ∧ requestsOf
        (parseAIrequest env logger unclosedReply prompt filename ip port username password t).1
      = requestsOf t ++
        [⟨"GET", "http://" ++ ip ++ ":" ++ port ++ "/devices/a", username, password⟩]
    ∧ parseAIrequest env logger truncatedReply prompt filename ip port username password t
      = (t, .ret ("Error", some .syntaxError)) := by
  refine ⟨⟨rfl, rfl⟩, ?_, ?_⟩
  · rw [parseAIrequest_requests_of_paths env logger unclosedReply prompt filename ip port
      username password ["/devices/a"] t decodeSelection_unclosedReply.2]
    simp [getDeviceInfoPathRequest, Sprintf, sprintfAux, renderArg, String.ext_iff]
  · simp only [parseAIrequest, decodeSelection_truncatedReply.2.2]
    rfl

/-- C5, the code at the failing inputs: on a reply that decodes to an object without
`devicePaths`, and on one whose `devicePaths` is a string, `parseAIrequest` returns no
error: it panics at the type assertion, before any request. -/
theorem parseAIrequest_without_paths_panics (env : Env) (logger : Logger)
    (prompt filename ip port username password : String) (t : List Event) :
    decodeSelection replyWithoutPaths = .ok (some [("answer", .str "none")])
    ∧ parseAIrequest env logger replyWithoutPaths prompt filename ip port username password t
      = (t, .panic .typeAssertion)
    ∧ decodeSelection replyPathsNoSequence = .ok (some [("devicePaths", .str "/devices/a")])
    ∧ parseAIrequest env logger replyPathsNoSequence prompt filename ip port username password t
      = (t, .panic .typeAssertion) := by
  have h1 : decodeSelection replyWithoutPaths = .ok (some [("answer", .str "none")]) := rfl
  have h2 : decodeSelection replyPathsNoSequence
      = .ok (some [("devicePaths", .str "/devices/a")]) := rfl
  refine ⟨h1, ?_, h2, ?_⟩
  · simp only [parseAIrequest, h1]
    rfl
  · simp only [parseAIrequest, h2]
    rfl

/-! ## `CheckDesiredState` -/

/-- Writing a log message returns and hands no request to the HTTP layer. -/
theorem write_returns (logger : Logger) (lvl : Int) (msg : String) (t : List Event) :
    ∃ t', logger.write lvl msg t = (t', .ret ()) ∧ requestsOf t' = requestsOf t := by
  unfold Logger.write
  split
  · exact ⟨_, rfl, by simp [requestsOf_append, requestsOf]⟩
  · exact ⟨_, rfl, rfl⟩

/-- One well-formed entry with the state `on` or `off`, at a device API that answers: the
loop body issues the request of that entry and returns. -/
theorem applyDevice_entry (env : Env) (hanswers : env.answers) (logger : Logger)
    (ip port username password : String) (device : JSON) (p s : String) (t : List Event)
    (hentry : IsEntry device p s) (hstate : s = "on" ∨ s = "off") :
    ∃ t', applyDevice env logger ip port username password device t = (t', .ret ())
      ∧ requestsOf t' = requestsOf t ++
        [alterDeviceStateRequest env p s "" ip port username password] := by
  obtain ⟨ms, rfl, hp, hs⟩ := hentry
  have key : ∀ (msg : String) (state : String),
      ∃ t', ((logger.Info msg >>= fun _ =>
          (alterDeviceState env p state "" ip port username password >>= fun _ => pure ()))
            : Run Unit) t = (t', .ret ())
        ∧ requestsOf t' = requestsOf t ++
          [alterDeviceStateRequest env p state "" ip port username password] := by
    intro msg state
    obtain ⟨t1, hw, hq⟩ := write_returns logger InfoLevel msg t
    simp only [bind_run, Run.bind, Logger.Info, hw, alterDeviceState_run]
    have h := hanswers t1 (alterDeviceStateRequest env p state "" ip port username password)
    rcases hr : env.roundTrip t1
      (alterDeviceStateRequest env p state "" ip port username password) with _ | resp
    · rw [hr] at h
      simp at h
    · refine ⟨_, rfl, ?_⟩
      simp [requestsOf_append, requestsOf, hq]
  rcases hstate with rfl | rfl
  · simpa [applyDevice, asMap, asString, hp, hs] using key _ "on"
  · simpa [applyDevice, asMap, asString, hp, hs] using key _ "off"

/-- The loop of `CheckDesiredState` over well-formed entries, at a device API that
answers: one request per entry, in order, and the loop returns. -/
theorem applyDevices_entries (env : Env) (hanswers : env.answers) (logger : Logger)
    (ip port username password : String) (devices : List JSON)
    (entries : List (String × String)) (t : List Event)
    (h : List.Forall₂ (fun d e => IsEntry d e.1 e.2 ∧ (e.2 = "on" ∨ e.2 = "off"))
      devices entries) :
    ∃ t', applyDevices env logger ip port username password devices t = (t', .ret ())
      ∧ requestsOf t' = requestsOf t ++
        entries.map (fun e => alterDeviceStateRequest env e.1 e.2 "" ip port username password) := by
  induction h generalizing t with
  | nil => exact ⟨t, rfl, by simp⟩
  | cons hd _ ih =>
    obtain ⟨t1, h1, hr1⟩ := applyDevice_entry env hanswers logger ip port username password
      _ _ _ t hd.1 hd.2
    obtain ⟨t2, h2, hr2⟩ := ih t1
    refine ⟨t2, ?_, ?_⟩
    · simp only [applyDevices, bind_run, Run.bind, h1]
      exact h2
    · rw [hr2, hr1]
      simp

/-- At a device API that answers every request, `CheckDesiredState` on well-formed
entries issues one request per entry, in order, and returns a nil error. -/
theorem CheckDesiredState_applies_entries (env : Env) (hanswers : env.answers)
    (logger : Logger) (jsonData ip port username password : String) (data : GoMap)
    (devices : List JSON) (entries : List (String × String)) (t : List Event)
    (hdecode : decodeDesiredStates jsonData = .ok data)
    (hdevices : data.index "devices" = some (.arr devices))
    (h : List.Forall₂ (fun d e => IsEntry d e.1 e.2 ∧ (e.2 = "on" ∨ e.2 = "off"))
      devices entries) :
    ∃ t', CheckDesiredState env logger jsonData ip port username password t = (t', .ret none)
      ∧ requestsOf t' = requestsOf t ++
        entries.map (fun e => alterDeviceStateRequest env e.1 e.2 "" ip port username password) := by
  obtain ⟨t1, hw1, hq1⟩ := write_returns logger InfoLevel
    (Sprintf env.fmtValue "Interpreting the desired state" []) t
  obtain ⟨t2, hw2, hq2⟩ := write_returns logger InfoLevel
    (Sprintf env.fmtValue "Response from LLM: %s" [.iface (data.index "text")]) t1
  obtain ⟨t', h1, h2⟩ := applyDevices_entries env hanswers logger ip port username password
    devices entries t2 h
  refine ⟨t', ?_, ?_⟩
  · simp only [CheckDesiredState, hdecode, hdevices, asSlice, bind_run, Run.bind, Logger.Info,
      hw1, hw2, h1, pure_run]
  · rw [h2, hq2, hq1]

/-- The specification's example at a device API that answers: the request for `/d1` with
`isOn=1`, then the one for `/d2` with `isOn=0`, and a nil error. -/
theorem CheckDesiredState_example_answered :
    (CheckDesiredState (envWith 200 "\x7b\x7d") mainLogger desiredStatesReply
        "10.10.0.140" "8176" "user" "secret" []).2 = .ret none
    ∧ requestsOf (CheckDesiredState (envWith 200 "\x7b\x7d") mainLogger desiredStatesReply
        "10.10.0.140" "8176" "user" "secret" []).1
      = [⟨"PUT", "http://10.10.0.140:8176/d1?isOn=1", "user", "secret"⟩,
         ⟨"PUT", "http://10.10.0.140:8176/d2?isOn=0", "user", "secret"⟩] := by
  constructor <;> rfl

/-- C6, the code at the failing input: on the specification's example, with a device API
that gives no response, the call for `/d1` panics in `alterDeviceState`, so that
`CheckDesiredState` does not return and the call for `/d2` is never issued. -/
theorem CheckDesiredState_example_unanswered :
    (CheckDesiredState envDown mainLogger desiredStatesReply
        "10.10.0.140" "8176" "user" "secret" []).2 = .panic .nilDereference
    ∧ requestsOf (CheckDesiredState envDown mainLogger desiredStatesReply
        "10.10.0.140" "8176" "user" "secret" []).1
      = [⟨"PUT", "http://10.10.0.140:8176/d1?isOn=1", "user", "secret"⟩] := by
  constructor <;> rfl

/-- C7: when the reply decodes, directly or after the repair, to an object (or to null)
whose `devices` is absent or no sequence, `CheckDesiredState` returns the error
`'devices' key not found or has an invalid type` and issues no request. -/
theorem CheckDesiredState_without_devices (env : Env) (logger : Logger)
    (jsonData ip port username password : String) (data : GoMap) (t : List Event)
    (hdecode : decodeDesiredStates jsonData = .ok data)
    (hdevices : ∀ xs, data.index "devices" ≠ some (.arr xs)) :
    (CheckDesiredState env logger jsonData ip port username password t).2
      = .ret (some .devicesKey)
    ∧ requestsOf (CheckDesiredState env logger jsonData ip port username password t).1
      = requestsOf t := by
  have hslice : asSlice (data.index "devices") = none := by
    rcases hv : data.index "devices" with _ | v
    · rfl
    · cases v <;> first | rfl | exact absurd hv (hdevices _)
  cases hE : logger.Enabled InfoLevel <;> cases hE' : logger.Enabled ErrorLevel <;>
    simp [CheckDesiredState, hdecode, hslice, Logger.Info, Logger.Error, Logger.write, hE, hE',
      bind_run, Run.bind, requestsOf_append, requestsOf]

/-- C7 at the reply `{"text":"nothing to do"}` and at a reply whose `devices` is a string. -/
theorem CheckDesiredState_without_devices_witness :
    ((CheckDesiredState envDown mainLogger replyWithoutDevices
        "10.10.0.140" "8176" "user" "secret" []).2 = .ret (some .devicesKey)
      ∧ requestsOf (CheckDesiredState envDown mainLogger replyWithoutDevices
        "10.10.0.140" "8176" "user" "secret" []).1 = requestsOf [])
    ∧ ((CheckDesiredState envDown mainLogger "\x7b\"devices\":\"/d1\""
        "10.10.0.140" "8176" "user" "secret" []).2 = .ret (some .devicesKey)
      ∧ requestsOf (CheckDesiredState envDown mainLogger "\x7b\"devices\":\"/d1\""
        "10.10.0.140" "8176" "user" "secret" []).1 = requestsOf []) :=
  ⟨CheckDesiredState_without_devices envDown mainLogger replyWithoutDevices
      "10.10.0.140" "8176" "user" "secret" (some [("text", .str "nothing to do")]) [] rfl
      (by intro xs h; cases h),
    CheckDesiredState_without_devices envDown mainLogger "\x7b\"devices\":\"/d1\""
      "10.10.0.140" "8176" "user" "secret" (some [("devices", .str "/d1")]) [] rfl
      (by intro xs h; cases h)⟩

/-- C8, the code at the failing input: on
`{"devices":[{"desiredState":"on"},{"devicePath":"/d2","desiredState":"off"}]}` the first
entry, an object without `devicePath`, is not skipped: `CheckDesiredState` panics at the
type assertion on it, and the request for `/d2` is never issued. -/
theorem CheckDesiredState_entry_without_path_panics (env : Env) (logger : Logger)
    (ip port username password : String) (t : List Event) :
    decodeDesiredStates entryWithoutPathReply
      = .ok (some [("devices", .arr [.obj [("desiredState", .str "on")],
          .obj [("devicePath", .str "/d2"), ("desiredState", .str "off")]])])
    ∧ (CheckDesiredState env logger entryWithoutPathReply ip port username password t).2
      = .panic .typeAssertion
    ∧ requestsOf (CheckDesiredState env logger entryWithoutPathReply ip port username password t).1
      = requestsOf t := by
  have hdecode : decodeDesiredStates entryWithoutPathReply
      = .ok (some [("devices", .arr [.obj [("desiredState", .str "on")],
          .obj [("devicePath", .str "/d2"), ("desiredState", .str "off")]])]) := rfl
  refine ⟨hdecode, ?_⟩
  cases hE : logger.Enabled InfoLevel <;>
    simp [CheckDesiredState, hdecode, Logger.Info, Logger.write, hE, bind_run, Run.bind,
      applyDevices, applyDevice, asMap, asString, asSlice, GoMap.index, Members.lookup,
      requestsOf_append, requestsOf]

/-! ## `main` -/

/-- What `main` logs at start with its logger: the error and the info message. -/
theorem startupLog_run (t : List Event) :
    startupLog mainLogger t
      = (t ++ [.log ErrorLevel "This is an error message",
          .log InfoLevel "This is an info message"], .ret ()) := by
  simp [startupLog, mainLogger, verbosity, Logger.IncreaseLevel, Logger.Error, Logger.Info,
    Logger.Debug, Logger.write, Logger.Enabled, InfoLevel, ErrorLevel, DebugLevel, bind_run,
    Run.bind]

/-- C9, counterexample: with `INDIGO_AUTH` set to `secret`, a value without a colon, and
`-list` given, `main` runs no branch: it panics at `strings.Split(auth, ":")[1]`, before
any request. -/
theorem main_auth_without_colon_panics :
    (main (envWith 200 "[]") { Flags.defaults with list := true } "secret" []).2
      = .panic .indexOutOfRange
    ∧ requestsOf (main (envWith 200 "[]") { Flags.defaults with list := true } "secret" []).1
      = [] := by
  constructor <;> rfl

/-- C9, amended: with `INDIGO_AUTH` set to a value that contains a colon (`username` is
the text before the first colon, `password` the text between the first and the second),
`main` logs its start messages and runs exactly the branch of the mode selected in the
order List, Info, AI query, Alter state; when no mode is selected it writes the usage hint
and nothing else, and issues no request. -/
theorem main_runs_selected_mode (env : Env) (f : Flags) (auth username password : String)
    (rest : List String) (t : List Event)
    (hauth : Split auth ':' = username :: password :: rest) :
    main env f auth t
        = (startupLog mainLogger >>= fun _ =>
            runMode env f username password (selectedMode f)) t
    ∧ (selectedMode f = .usage →
        main env f auth t
          = (t ++ [.log ErrorLevel "This is an error message",
              .log InfoLevel "This is an info message", .stdout (usageHint ++ "\n")],
            .ret ())) := by
  have hne : auth ≠ "" := by
    rintro rfl
    simp [Split, splitAux] at hauth
  have hmain : main env f auth t
      = (startupLog mainLogger >>= fun _ =>
          runMode env f username password (selectedMode f)) t := by
    simp only [main, bind_run, Run.bind, startupLog_run, hne, if_false, hauth, indexString,
      List.get?, liftOutcome_run, selectedMode]
    by_cases h1 : f.list = true
    · simp [h1, runMode]
    · by_cases h2 : f.deviceName ≠ "" ∧ f.alterDeviceStateFlag = false
      · simp [h1, h2, runMode]
      · by_cases h3 : f.openAI = true
        · simp [h1, h2, h3, runMode]
        · by_cases h4 : f.alterDeviceStateFlag = true ∧ f.deviceName ≠ "" ∧ f.deviceState ≠ ""
          · simp [h1, h2, h3, h4, runMode]
          · simp [h1, h2, h3, h4, runMode]
  refine ⟨hmain, fun hmode => ?_⟩
  rw [hmain]
  simp [bind_run, Run.bind, startupLog_run, hmode, runMode, usageBranch, Sprintln, Join,
    renderArg]

/-- C9, amended, with `INDIGO_AUTH` set to `user:secret` and no flag given: the usage
hint is written and no request is issued. -/
theorem main_runs_selected_mode_witness :
    Split "user:secret" ':' = ["user", "secret"]
    ∧ main envDown Flags.defaults "user:secret" []
      = ([.log ErrorLevel "This is an error message", .log InfoLevel "This is an info message",
          .stdout (usageHint ++ "\n")], .ret ()) :=
  ⟨rfl, (main_runs_selected_mode envDown Flags.defaults "user:secret" "user" "secret" [] []
    rfl).2 rfl⟩

/-! ## `sendPromptString` -/

/-- The slice of the last ten fields: with fewer than ten fields it panics, otherwise it
is the list of the ten last ones. -/
theorem lastTen_spec (fields : List String) :
    (fields.length < 10 → lastTen fields = .panic .sliceBounds)
    ∧ (10 ≤ fields.length →
        lastTen fields = .ret (fields.drop (fields.length - 10))
        ∧ (fields.drop (fields.length - 10)).length = 10) := by
  unfold lastTen
  constructor
  · intro h
    have : ((fields.length : Int) - 10 < 0) := by omega
    simp [this]
  · intro h
    have h1 : ¬ ((fields.length : Int) - 10 < 0) := by omega
    have h2 : ((fields.length : Int) - 10).toNat = fields.length - 10 := by omega
    simp only [h1, if_false, h2, List.length_drop, true_and]
    omega

/-- The end of `sendPromptString` leaves the trace as it is. -/
theorem firstChoice_trace (resp : Option (List String)) (t : List Event) :
    (firstChoice resp t).1 = t := by
  rcases resp with _ | _ | _ <;> rfl

/-- C10: for every prompt with at least ten fields the truncated prompt of
`sendPromptString` is the ten last fields joined by single spaces and the run goes on to
the completion request; with fewer than ten fields the slice expression panics and no
completion request is sent, as it happens for the empty prompt that `generatePrompt`
returns when the template cannot be rendered. -/
theorem sendPromptString_truncation (env : Env) (logger : Logger) (prompt : String)
    (t : List Event) :
    (10 ≤ (Fields prompt).length →
      ∃ front last, Fields prompt = front ++ last ∧ last.length = 10
        ∧ truncatePrompt prompt = .ret (Join last " ")
        ∧ completionsOf (sendPromptString env logger prompt t).1 = completionsOf t ++ [prompt])
    ∧ ((Fields prompt).length < 10 →
      truncatePrompt prompt = .panic .sliceBounds
        ∧ sendPromptString env logger prompt t = (t, .panic .sliceBounds))
    ∧ (∀ input userPrompt filename failure,
      env.render t filename { UserPrompt := userPrompt, Input := input } = .error failure →
        ((generatePrompt env logger input userPrompt filename >>= fun r =>
            sendPromptString env logger r.1) t).2 = .panic .sliceBounds
        ∧ completionsOf ((generatePrompt env logger input userPrompt filename >>= fun r =>
            sendPromptString env logger r.1) t).1 = completionsOf t) := by
  have hshort : ∀ (p : String) (t' : List Event), (Fields p).length < 10 →
      truncatePrompt p = .panic .sliceBounds
        ∧ sendPromptString env logger p t' = (t', .panic .sliceBounds) := by
    intro p t' h
    have hp : truncatePrompt p = .panic .sliceBounds := by
      simp [truncatePrompt, (lastTen_spec (Fields p)).1 h]
    exact ⟨hp, by simp [sendPromptString, hp, bind_run, Run.bind]⟩
  refine ⟨fun h => ?_, hshort prompt t, ?_⟩
  · obtain ⟨h1, h2⟩ := (lastTen_spec (Fields prompt)).2 h
    have hp : truncatePrompt prompt
        = .ret (Join ((Fields prompt).drop ((Fields prompt).length - 10)) " ") := by
      simp [truncatePrompt, h1]
    refine ⟨(Fields prompt).take ((Fields prompt).length - 10),
      (Fields prompt).drop ((Fields prompt).length - 10),
      (List.take_append_drop _ _).symm, h2, hp, ?_⟩
    cases hE : logger.Enabled DebugLevel <;> cases hI : logger.Enabled InfoLevel <;>
      simp only [sendPromptString, hp, bind_run, Run.bind, Logger.Debug, Logger.Info,
        Logger.write, hE, hI, createChatCompletion, liftOutcome_run, emit_run, run_pure_apply,
        if_true, if_false, Bool.false_eq_true] <;>
      simp [firstChoice_trace, completionsOf_append, completionsOf]
  · intro input userPrompt filename failure hfail
    have hempty : (Fields "").length < 10 := by decide
    cases failure <;> cases hE : logger.Enabled ErrorLevel <;>
      simp [generatePrompt, renderTemplate, hfail, bind_run, Run.bind, Logger.Error,
        Logger.write, hE, (hshort "" _ hempty).2, completionsOf_append, completionsOf]

/-- The truncated prompt of a prompt of twelve fields: the ten last ones, with single
spaces whatever white space separated them. -/
theorem truncatePrompt_twelve_fields :
    truncatePrompt twelveFieldPrompt
      = .ret "three four five six seven eight nine ten eleven twelve" := by
  decide

/-- C10 at a prompt of twelve fields and at a prompt of two. -/
theorem sendPromptString_truncation_witness :
    (∃ front last, Fields twelveFieldPrompt = front ++ last ∧ last.length = 10
      ∧ truncatePrompt twelveFieldPrompt = .ret (Join last " ")
      ∧ completionsOf (sendPromptString envDown mainLogger twelveFieldPrompt []).1
        = completionsOf [] ++ [twelveFieldPrompt])
    ∧ sendPromptString envDown mainLogger "too short" [] = ([], .panic .sliceBounds) :=
  ⟨(sendPromptString_truncation envDown mainLogger twelveFieldPrompt []).1 (by decide),
    ((sendPromptString_truncation envDown mainLogger "too short" []).2.1 (by decide)).2⟩

/-! ## Further facts -/

/-- The limit of the `float64` range, written as powers of two. -/
theorem float64Limit_eq : float64Limit = 2 ^ 1024 - 2 ^ 970 := by
  norm_num [float64Limit]

/-- Whenever the reply decodes to a map whose `devicePaths` is absent or no sequence,
`parseAIrequest` panics before any request. -/
theorem parseAIrequest_panics_of_no_paths (env : Env) (logger : Logger)
    (request prompt filename ip port username password : String) (data : GoMap)
    (t : List Event) (hdecode : decodeSelection request = .ok data)
    (hpaths : ∀ xs, data.index "devicePaths" ≠ some (.arr xs)) :
    parseAIrequest env logger request prompt filename ip port username password t
      = (t, .panic .typeAssertion) := by
  have hslice : asSlice (data.index "devicePaths") = none := by
    rcases hv : data.index "devicePaths" with _ | v
    · rfl
    · cases v <;> first | rfl | exact absurd hv (hpaths _)
  simp only [parseAIrequest, hdecode, hslice]
  rfl

/-- An entry that is no object, and an entry whose `desiredState` is missing, no string,
or neither `on` nor `off`, makes the loop body of `CheckDesiredState` return without a
request. -/
theorem applyDevice_skips (env : Env) (logger : Logger) (ip port username password : String)
    (device : JSON) (t : List Event)
    (h : asMap (some device) = none
      ∨ ∃ ms, device = .obj ms ∧ ∀ s, Members.lookup "desiredState" ms = some (.str s) →
          s ≠ "on" ∧ s ≠ "off") :
    (applyDevice env logger ip port username password device t).2 = .ret ()
    ∧ requestsOf (applyDevice env logger ip port username password device t).1
      = requestsOf t := by
  rcases h with h | ⟨ms, rfl, h⟩
  · simp [applyDevice, h, requestsOf_append, requestsOf]
  · simp only [applyDevice, asMap]
    rcases hs : asString (Members.lookup "desiredState" ms) with _ | s
    · exact ⟨rfl, rfl⟩
    · have hl : Members.lookup "desiredState" ms = some (.str s) := by
        rcases hv : Members.lookup "desiredState" ms with _ | v
        · rw [hv] at hs; cases hs
        · rw [hv] at hs
          cases v <;> simp [asString] at hs
          rw [hs]
      obtain ⟨h1, h2⟩ := h s hl
      simp only [h1, h2, if_false]
      exact ⟨rfl, rfl⟩

/-- The pieces `strings.Split` returns are never none. -/
theorem splitAux_length_pos (sep : Char) (cs cur : List Char) :
    1 ≤ (splitAux sep cs cur).length := by
  induction cs generalizing cur with
  | nil => simp [splitAux]
  | cons c cs ih =>
    unfold splitAux
    split
    · simp
    · exact ih _

/-- A text that contains the separator splits into at least two pieces. -/
theorem splitAux_length_of_mem (sep : Char) (cs cur : List Char) (h : sep ∈ cs) :
    2 ≤ (splitAux sep cs cur).length := by
  induction cs generalizing cur with
  | nil => cases h
  | cons c cs ih =>
    unfold splitAux
    split
    · have := splitAux_length_pos sep cs []
      simp only [List.length_cons]
      omega
    · rename_i hc
      rcases List.mem_cons.1 h with h' | h'
      · exact absurd h'.symm hc
      · exact ih _ h'

/-- A value of `INDIGO_AUTH` that contains a colon has a user name and a password. -/
theorem Split_of_colon (auth : String) (h : ':' ∈ auth.data) :
    ∃ username password rest, Split auth ':' = username :: password :: rest := by
  have h2 := splitAux_length_of_mem ':' auth.data [] h
  unfold Split
  rcases hs : splitAux ':' auth.data [] with _ | ⟨u, _ | ⟨p, rest⟩⟩
  · rw [hs] at h2; simp at h2
  · rw [hs] at h2; simp at h2
  · exact ⟨u, p, rest, rfl⟩

/-- An object entry whose `desiredState` is `on` or `off` and whose `devicePath` is
missing or no string makes the loop body of `CheckDesiredState` panic, before any
request. -/
theorem applyDevice_panics_without_path (env : Env) (logger : Logger)
    (ip port username password : String) (ms : Members) (s : String) (t : List Event)
    (hs : Members.lookup "desiredState" ms = some (.str s)) (hstate : s = "on" ∨ s = "off")
    (hp : ∀ p, Members.lookup "devicePath" ms ≠ some (.str p)) :
    (applyDevice env logger ip port username password (.obj ms) t).2 = .panic .typeAssertion
    ∧ requestsOf (applyDevice env logger ip port username password (.obj ms) t).1
      = requestsOf t := by
  have hpath : asString (Members.lookup "devicePath" ms) = none := by
    rcases hv : Members.lookup "devicePath" ms with _ | v
    · rfl
    · cases v <;> first | rfl | exact absurd hv (hp _)
  rcases hstate with rfl | rfl <;> cases hE : logger.Enabled InfoLevel <;>
    simp [applyDevice, asMap, asString, hs, hpath, Logger.Info, Logger.write, hE, bind_run,
      Run.bind, requestsOf_append, requestsOf]

/-- The specification's example through `CheckDesiredState_applies_entries`: at a device
API that answers, the entries `(/d1, on)` and `(/d2, off)` give their two requests in
order and a nil error. -/
theorem CheckDesiredState_applies_entries_example :
    ∃ t', CheckDesiredState (envWith 200 "\x7b\x7d") mainLogger desiredStatesReply
        "10.10.0.140" "8176" "user" "secret" [] = (t', .ret none)
      ∧ requestsOf t' = requestsOf [] ++
        [("/d1", "on"), ("/d2", "off")].map (fun e =>
          alterDeviceStateRequest (envWith 200 "\x7b\x7d") e.1 e.2 "" "10.10.0.140" "8176"
            "user" "secret") :=
  CheckDesiredState_applies_entries (envWith 200 "\x7b\x7d") (fun _ _ => rfl) mainLogger
    desiredStatesReply "10.10.0.140" "8176" "user" "secret"
    (some [("devices", .arr [.obj [("devicePath", .str "/d1"), ("desiredState", .str "on")],
      .obj [("devicePath", .str "/d2"), ("desiredState", .str "off")]])])
    [.obj [("devicePath", .str "/d1"), ("desiredState", .str "on")],
      .obj [("devicePath", .str "/d2"), ("desiredState", .str "off")]]
    [("/d1", "on"), ("/d2", "off")] [] rfl rfl
    (List.Forall₂.cons ⟨⟨_, rfl, rfl, rfl⟩, Or.inl rfl⟩
      (List.Forall₂.cons ⟨⟨_, rfl, rfl, rfl⟩, Or.inr rfl⟩ List.Forall₂.nil))

end IndigoGPT
